import Mathlib

/-
Verification of the MARC 5xx transformation rules (bd5xx): note extraction,
thesis info, abstracts, funding, licensing, copyright, private notes, export
flags. Each Python rule is embedded as a Lean function over an explicit model
of the raw field occurrences and the semantic record values it touches.
-/

set_option maxRecDepth 4000

/-- A MARC sub-field value as it appears in a raw occurrence: either a single
string, or a sequence of strings (repeated sub-field, a tuple in the data). -/
inductive SubVal where
  | str (s : String)
  | list (xs : List String)
deriving DecidableEq, Repr

/-- A Python value used where the code compares a list against a string
(the license filter). Only the shapes reachable there are modelled. -/
inductive Py where
  | s (v : String)
  | l (v : List String)
deriving DecidableEq, Repr

/-- Python equality between the modelled value shapes: values of different
types (a sequence and a string) are never equal. -/
def pyEq : Py → Py → Bool
  | .s a, .s b => a == b
  | .l a, .l b => a == b
  | _, _ => false

/-- Python truthiness of an optional sub-field value: None, the empty string
and the empty sequence are falsy. -/
def pyTruthy : Option SubVal → Bool
  | none => false
  | some (.str s) => !s.isEmpty
  | some (.list xs) => !xs.isEmpty

/-- Python `a or b` at sub-field values: the first operand when truthy,
otherwise the second operand whatever it is. -/
def pyOr (a b : Option SubVal) : Option SubVal :=
  if pyTruthy a then a else b

/-- Modelled from the spec: `normalize-to-list` (`force_list`, a helper
collaborator outside src/). None becomes the empty sequence, a scalar becomes
a one-element sequence, a sequence is returned unchanged. -/
def force_list : Option SubVal → List String
  | none => []
  | some (.str s) => [s]
  | some (.list xs) => xs

/-- Modelled from the spec: `collapse-to-scalar` (`force_single_element`,
outside src/) at sequence values: a single-element sequence yields that
element, empty yields absent, multi-element takes the first. -/
def fse_list : List String → Option String
  | [] => none
  | x :: _ => some x

/-- Modelled from the spec: `collapse-to-scalar` at a scalar-or-sequence
value: a scalar is returned unchanged, a sequence is collapsed. -/
def force_single_element : SubVal → Option String
  | .str s => some s
  | .list xs => fse_list xs

/-- Modelled from the spec: `collapse-to-scalar` applied to the result of a
`.get` that defaults to None (absent sub-field collapses to absent). -/
def fse_opt : Option SubVal → Option String
  | none => none
  | some v => force_single_element v

/-- Modelled from the spec: `parse-optional-int` (`maybe_int`, outside src/):
a numeric string becomes an integer, anything else is absent, not an error. -/
def maybe_int : Option SubVal → Option Int
  | some (.str s) => s.toInt?
  | _ => none

/-- Modelled from the spec: the typed cross-reference object produced by
`resolve-reference` (`get_record_ref`, outside src/), keeping the opaque key
and the namespace it was resolved in. -/
structure RecordRef where
  recid : String
  endpoint : String
deriving DecidableEq, Repr

/-- Modelled from the spec: `resolve-reference` (`get_record_ref`, outside
src/): an absent key yields a null reference, never an error. -/
def get_record_ref (recid : Option String) (endpoint : String) : Option RecordRef :=
  match recid with
  | none => none
  | some r => some ⟨r, endpoint⟩

/-- The raw value a rule receives for one tag: a single occurrence, or a
grouped sequence of occurrences when the tag repeats. -/
inductive RawField (α : Type) where
  | one (occ : α)
  | many (occs : List α)
deriving DecidableEq, Repr

/-- `force_list` applied to a raw field value: a single occurrence becomes a
one-element list, a grouped sequence is traversed as is. -/
def force_list_field : RawField α → List α
  | .one occ => [occ]
  | .many occs => occs

/-- Python `value.get(...)` on the raw field value before it is normalized to
a list: defined on a single occurrence, but a grouped sequence (a tuple) has
no `get` attribute, which raises. -/
def field_get (f : α → β) : RawField α → Option β
  | .one occ => some (f occ)
  | .many _ => none

/-- Case-insensitive comparison of two characters, as the IGNORECASE flag
applies it to the literal part of the pattern. -/
def charCI (a b : Char) : Bool := a.toLower == b.toLower

/-- Match a literal pattern fragment case-insensitively at the head of the
input, returning the rest of the input on success. -/
def dropLitCI : List Char → List Char → Option (List Char)
  | [], cs => some cs
  | _ :: _, [] => none
  | p :: ps, c :: cs => if charCI p c then dropLitCI ps cs else none

/-- Match one optional repetition of the group `-\d{2}`: consume a dash and
two digits when present, otherwise consume nothing. -/
def tryDashDigits (cs : List Char) : List Char × List Char :=
  match cs with
  | '-' :: a :: b :: rest =>
      if a.isDigit && b.isDigit then (['-', a, b], rest) else ([], cs)
  | _ => ([], cs)

/-- The compiled pattern IS_DEFENSE_DATE applied with `.match`: anchored at
the start of the text, case-insensitive literal "Presented on ", then a date
`\d{4}(-\d{2}){,2}` captured greedily as the defense_date group. Returns the
captured group when the text matches, none otherwise. -/
def matchDefenseDate (s : String) : Option String :=
  match dropLitCI "Presented on ".data s.data with
  | none => none
  | some rest =>
    match rest with
    | d1 :: d2 :: d3 :: d4 :: rest2 =>
        if d1.isDigit && d2.isDigit && d3.isDigit && d4.isDigit then
          let (g1, rest3) := tryDashDigits rest2
          let (g2, _) := tryDashDigits rest3
          some (String.mk ([d1, d2, d3, d4] ++ g1 ++ g2))
        else none
    | _ => none

/-- A note entry `{source, value}` as appended to public_notes and
_private_notes. -/
structure NoteEntry where
  source : Option String
  value : String
deriving DecidableEq, Repr

/-- An institution entry of thesis_info: `curated_relation` and `record` are
present only on zipped entries; the outer Option on `record` distinguishes an
absent key from a key present with a null reference. -/
structure Institution where
  curated_relation : Option Bool := none
  name : String
  record : Option (Option RecordRef) := none
deriving DecidableEq, Repr

/-- The thesis_info semantic object. An outer `none` means the key is absent
from the dict; for `date` and `degree_type` the inner Option is the stored
value, which the rule may set to Python None. -/
structure ThesisInfo where
  defense_date : Option String := none
  date : Option (Option String) := none
  degree_type : Option (Option String) := none
  institutions : Option (List Institution) := none
deriving DecidableEq, Repr

/-- A raw 500 occurrence: attribution sub-field 9 and repeatable text
sub-field a. -/
structure Occ500 where
  nine : Option SubVal := none
  a : Option SubVal := none
deriving DecidableEq, Repr

/-- The public_notes rule for tag 500. `source` is computed once, from
`value.get('9', '')` on the raw value before the occurrence loop; on a
grouped sequence of occurrences that attribute access raises (modelled as
none). Each text value matching the defense-date pattern updates
thesis_info.defense_date instead of becoming a note; every other text is
appended as a note carrying that single source. Returns the note list and
the thesis_info object written back as a side effect. -/
def public_notes (pn : List NoteEntry) (ti : ThesisInfo) (value : RawField Occ500) :
    Option (List NoteEntry × ThesisInfo) :=
  match field_get (fun occ => occ.nine.getD (SubVal.str "")) value with
  | none => none
  | some nineVal =>
      let source := force_single_element nineVal
      some ((force_list_field value).foldl
        (fun acc occ =>
          (force_list occ.a).foldl
            (fun acc note =>
              match matchDefenseDate note with
              | some d => (acc.1, { acc.2 with defense_date := some d })
              | none => (acc.1 ++ [⟨source, note⟩], acc.2))
            acc)
        (pn, ti))

example : matchDefenseDate "Presented on 1999-05" = some "1999-05" := by decide
example : matchDefenseDate "Thesis defended" = none := by decide

/-- A raw 502 occurrence: degree-type sub-field b, date sub-field d,
institution names c and institution reference keys z. -/
structure Occ502 where
  b : Option SubVal := none
  c : Option SubVal := none
  d : Option SubVal := none
  z : Option SubVal := none
deriving DecidableEq, Repr

/-- Python `str.upper()` on the ASCII degree strings: uppercase every
character. -/
def str_upper (s : String) : String :=
  String.mk (s.data.map Char.toUpper)

/-- The DEGREE_TYPES_MAP lookup table of the 502 rule, in source order. -/
def DEGREE_TYPES_MAP : List (String × String) :=
  [("RAPPORT DE STAGE", "other"),
   ("INTERNSHIP REPORT", "other"),
   ("DIPLOMA", "diploma"),
   ("BACHELOR", "bachelor"),
   ("LAUREA", "laurea"),
   ("MASTER", "master"),
   ("THESIS", "other"),
   ("PHD", "phd"),
   ("PDF", "phd"),
   ("PH.D. THESIS", "phd"),
   ("HABILITATION", "habilitation")]

/-- Helper _get_degree_type of the 502 rule: collapse sub-field b (defaulting
to the empty string), return nothing when falsy, otherwise look the uppercased
value up in DEGREE_TYPES_MAP with default "other". -/
def _get_degree_type (value : Occ502) : Option String :=
  match force_single_element (value.b.getD (SubVal.str "")) with
  | none => none
  | some b_value =>
      if b_value = "" then none
      else some ((DEGREE_TYPES_MAP.lookup (str_upper b_value)).getD "other")

/-- Helper _get_institutions of the 502 rule: when the name list and the
reference-key list differ in length, emit name-only entries; when the lengths
match, zip them into curated entries carrying a resolved record reference. -/
def _get_institutions (value : Occ502) : List Institution :=
  let c_values := force_list value.c
  let z_values := force_list value.z
  if c_values.length ≠ z_values.length then
    c_values.map (fun c_value => { name := c_value })
  else
    (c_values.zip z_values).map (fun p =>
      { curated_relation := some true,
        name := p.1,
        record := some (get_record_ref (some p.2) "institutions") })

/-- The thesis_info rule for tag 502: starts from the thesis_info object
already in the in-progress record and assigns its date, degree_type and
institutions keys, leaving every other key (defense_date) untouched. -/
def thesis_info (self_thesis : ThesisInfo) (value : Occ502) : ThesisInfo :=
  { self_thesis with
    date := some (fse_opt value.d),
    degree_type := some (_get_degree_type value),
    institutions := some (_get_institutions value) }

/-- Modelled from the spec: the record model wrapping these rules (outside
src/) post-processes the output so that a missing value yields an absent key,
not a key holding null ("empty input yields no degree-type key at all
(absence, not null)"): keys whose stored value is null are dropped. -/
def strip_null_values (t : ThesisInfo) : ThesisInfo :=
  { t with
    date := match t.date with
      | some none => none
      | x => x,
    degree_type := match t.degree_type with
      | some none => none
      | x => x }

/-- A raw 536 occurrence: agency a, grant number c, project number f. An
absent field stands for a sub-field that is missing or null. -/
structure Occ536 where
  a : Option SubVal := none
  c : Option SubVal := none
  f : Option SubVal := none
deriving DecidableEq, Repr

/-- A funding_info entry {agency, grant_number, project_number}. -/
structure FundingInfo where
  agency : Option SubVal
  grant_number : Option SubVal
  project_number : Option SubVal
deriving DecidableEq, Repr

/-- The funding_info rule for tag 536: a pure per-occurrence renaming of
sub-fields to semantic attributes. -/
def funding_info (value : Occ536) : FundingInfo :=
  { agency := value.a, grant_number := value.c, project_number := value.f }

/-- The backward funding_info2marc rule: the inverse renaming. -/
def funding_info2marc (value : FundingInfo) : Occ536 :=
  { a := value.agency, c := value.grant_number, f := value.project_number }

/-- A raw 540 occurrence: license text a, imposing body b, url u,
material 3. -/
structure Occ540 where
  a : Option SubVal := none
  b : Option SubVal := none
  u : Option SubVal := none
  three : Option SubVal := none
deriving DecidableEq, Repr

/-- A license entry {license, imposing, url, material}. -/
structure LicenseInfo where
  license : Option String
  imposing : Option SubVal
  url : Option SubVal
  material : Option SubVal
deriving DecidableEq, Repr

/-- The license rule for tag 540. The filter meant to strip the redundant
string "Open Access" compares the whole list license_value against the
string, not the iterated element, so each element is kept or dropped by that
list-against-string comparison. -/
def license (value : Occ540) : LicenseInfo :=
  let license_value := force_list value.a
  let license_value2 :=
    license_value.filter (fun _val => !(pyEq (Py.l license_value) (Py.s "Open Access")))
  { license := fse_list license_value2,
    imposing := value.b,
    url := value.u,
    material := value.three }

/-- The backward license2marc rule: renames the semantic attributes back to
sub-fields a, b, u, 3. -/
def license2marc (value : LicenseInfo) : Occ540 :=
  { a := value.license.map SubVal.str,
    b := value.imposing,
    u := value.url,
    three := value.material }

/-- A raw 542 occurrence: holder d, material e with fallback 3, statement f,
year g, url u. -/
structure Occ542 where
  d : Option SubVal := none
  e : Option SubVal := none
  f : Option SubVal := none
  g : Option SubVal := none
  u : Option SubVal := none
  three : Option SubVal := none
deriving DecidableEq, Repr

/-- A copyright entry {holder, material, statement, url, year}. -/
structure CopyrightInfo where
  holder : Option SubVal
  material : Option String
  statement : Option SubVal
  url : Option SubVal
  year : Option Int
deriving DecidableEq, Repr

/-- The MATERIAL_MAP lookup table of the copyright rule. -/
def MATERIAL_MAP : List (String × String) :=
  [("Article", "publication"),
   ("Published thesis as a book", "publication")]

/-- The E_MAP lookup table of the backward copyright rule. -/
def E_MAP : List (String × String) := [("publication", "Article")]

/-- Python `dict.get(key)` where the key is an optional sub-field value: a
string key is looked up, a null or sequence key is simply not found. -/
def dict_get_sub (m : List (String × String)) : Option SubVal → Option String
  | some (.str s) => m.lookup s
  | _ => none

/-- The copyright rule for tag 542: material is derived from sub-field e,
falling back to sub-field 3, through MATERIAL_MAP; the year goes through the
optional integer parse. -/
def copyright (value : Occ542) : CopyrightInfo :=
  { holder := value.d,
    material := dict_get_sub MATERIAL_MAP (pyOr value.e value.three),
    statement := value.f,
    url := value.u,
    year := maybe_int value.g }

/-- The backward copyright occurrence: the rule emits only sub-fields d, e,
f, g, u — there is no 3 key in its output. -/
structure Occ542out where
  d : Option SubVal
  e : Option String
  f : Option SubVal
  g : Option Int
  u : Option SubVal
deriving DecidableEq, Repr

/-- The backward copyright2marc rule: reconstructs sub-field e from the
material category through E_MAP and never emits sub-field 3. -/
def copyright2marc (value : CopyrightInfo) : Occ542out :=
  { d := value.holder,
    e := value.material.bind (fun e_value => E_MAP.lookup e_value),
    f := value.statement,
    g := value.year,
    u := value.url }

/-- The _export_to flag map: an absent entry means the destination key is not
in the map, a present entry carries its boolean. -/
structure ExportTo where
  CDS : Option Bool := none
  HAL : Option Bool := none
deriving DecidableEq, Repr

/-- A backward 595 occurrence carrying only the classification sub-field c,
as emitted by the export-flag rule. -/
structure Occ595c where
  c : String
deriving DecidableEq, Repr

/-- The backward _export_to2marc rule: emits at most one occurrence, testing
CDS key presence first, then HAL true, then HAL false, in an if/elif chain. -/
def _export_to2marc (value : ExportTo) : List Occ595c :=
  if value.CDS.isSome then [⟨"CDS"⟩]
  else if value.HAL = some true then [⟨"HAL"⟩]
  else if value.HAL = some false then [⟨"not HAL"⟩]
  else []

/-- A raw 595 occurrence of the HAL sub-family: attribution sub-field 9 (read
by no rule of this sub-family) and repeatable text sub-field a. -/
structure Occ595H where
  nine : Option SubVal := none
  a : Option SubVal := none
deriving DecidableEq, Repr

/-- The _private_notes_hal rule for tag pattern 595.H: appends one note per
text value with the hardcoded source "HAL", never reading sub-field 9. -/
def _private_notes_hal (pn : List NoteEntry) (value : RawField Occ595H) :
    List NoteEntry :=
  (force_list_field value).foldl
    (fun acc occ =>
      acc ++ (force_list occ.a).map (fun note => ⟨some "HAL", note⟩))
    pn

/-- A backward general 595 occurrence {9, a} as emitted for non-HAL notes. -/
structure Occ595 where
  nine : Option String
  a : String
deriving DecidableEq, Repr

/-- A backward 595_H occurrence {a} as emitted for HAL notes: it carries no
attribution sub-field. -/
structure Occ595Hout where
  a : String
deriving DecidableEq, Repr

/-- The backward _private_notes2marc rule: each note whose source is "HAL" is
appended to the 595_H result, every other note to the general 595 result.
Returns the pair (595 occurrences, 595_H occurrences). -/
def _private_notes2marc (r595 : List Occ595) (r595H : List Occ595Hout)
    (value : List NoteEntry) : List Occ595 × List Occ595Hout :=
  value.foldl
    (fun acc note =>
      if note.source = some "HAL" then (acc.1, acc.2 ++ [⟨note.value⟩])
      else (acc.1 ++ [⟨note.source, note.value⟩], acc.2))
    (r595, r595H)

/-- A well-formed 536 occurrence: every sub-field the funding rule reads is
present and non-null, so nothing degrades to a null attribute on the way
through the semantic entry. -/
def wellFormed536 (v : Occ536) : Prop :=
  v.a ≠ none ∧ v.c ≠ none ∧ v.f ≠ none

/-- A well-formed 540 occurrence: the license text is a single scalar string
(a multi-valued text would be collapsed to its first element) and the other
sub-fields the rule reads are present and non-null. -/
def wellFormed540 (v : Occ540) : Prop :=
  (∃ s, v.a = some (SubVal.str s)) ∧ v.b ≠ none ∧ v.u ≠ none ∧ v.three ≠ none

/-- Collapsing sub-field b of a 502 occurrence that holds a non-empty scalar
string resolves the degree type through DEGREE_TYPES_MAP on the uppercased
value, defaulting to "other". -/
theorem _get_degree_type_of_str (v : Occ502) (s : String)
    (hb : v.b = some (SubVal.str s)) (hs : ¬ s = "") :
    _get_degree_type v = some ((DEGREE_TYPES_MAP.lookup (str_upper s)).getD "other") := by
  simp [_get_degree_type, hb, force_single_element, hs]

/-- Claim C1: evaluation of the public_notes rule at the failing input. Two
occurrences of tag 500 grouped under one key, carrying the different
attribution values "arXiv" and "CDS", are passed as one sequence; the rule
reads `value.get('9', '')` on that sequence before the occurrence loop, which
fails (a sequence has no such attribute), so no note list is produced at all
— the notes never receive their own occurrence's source. -/
theorem C1_public_notes_grouped_occurrences_fail :
    public_notes [] {} (.many
      [{ nine := some (SubVal.str "arXiv"), a := some (SubVal.str "note one") },
       { nine := some (SubVal.str "CDS"), a := some (SubVal.str "note two") }]) = none := rfl

/-- Claim C3: a 500 occurrence whose text is exactly "Presented on 1999-05"
adds nothing to the note list and sets thesis_info.defense_date to "1999-05";
a text not matching the defense-date pattern becomes a note attributed to the
occurrence's collapsed source and leaves thesis_info unchanged. -/
theorem C3_defense_date_extraction :
    ∀ (pn : List NoteEntry) (ti : ThesisInfo) (nine : Option SubVal),
      public_notes pn ti (.one { nine := nine, a := some (SubVal.str "Presented on 1999-05") }) =
          some (pn, { ti with defense_date := some "1999-05" })
      ∧ ∀ t, matchDefenseDate t = none →
          public_notes pn ti (.one { nine := nine, a := some (SubVal.str t) }) =
            some (pn ++ [⟨force_single_element (nine.getD (SubVal.str "")), t⟩], ti) := by
  intro pn ti nine
  constructor
  · rfl
  · intro t ht
    simp [public_notes, field_get, force_list_field, force_list, ht]

/-- Claim C3 witness: the theorem applied at a concrete occurrence with
source "CDS", once with the defense-date text and once with a plain note. -/
theorem C3_witness :
    public_notes [] {} (.one { nine := some (SubVal.str "CDS"),
                               a := some (SubVal.str "Presented on 1999-05") }) =
      some ([], { defense_date := some "1999-05" })
    ∧ public_notes [] {} (.one { nine := some (SubVal.str "CDS"),
                                 a := some (SubVal.str "Thesis at CERN") }) =
      some ([⟨some "CDS", "Thesis at CERN"⟩], {}) := by
  refine ⟨(C3_defense_date_extraction [] {} (some (SubVal.str "CDS"))).1, ?_⟩
  exact ((C3_defense_date_extraction [] {} (some (SubVal.str "CDS"))).2
    "Thesis at CERN" (by decide)).trans (by decide)

/-- Claim C9: the 502 rule merges into the thesis_info object already in the
in-progress record: a previously set defense_date is still present and
unchanged in the returned object, and only the date, degree_type and
institutions keys are assigned. -/
theorem C9_thesis_info_merges :
    ∀ (prev : ThesisInfo) (v : Occ502) (d : String),
      prev.defense_date = some d →
        (thesis_info prev v).defense_date = some d
        ∧ (thesis_info prev v).date = some (fse_opt v.d)
        ∧ (thesis_info prev v).degree_type = some (_get_degree_type v)
        ∧ (thesis_info prev v).institutions = some (_get_institutions v) := by
  intro prev v d h
  exact ⟨by simp [thesis_info, h], rfl, rfl, rfl⟩

/-- Claim C9 witness: applied at a record where the 500 rule already set
defense_date, with an empty 502 occurrence. -/
theorem C9_witness :
    (thesis_info { defense_date := some "1999-05" } {}).defense_date = some "1999-05" :=
  (C9_thesis_info_merges { defense_date := some "1999-05" } {} "1999-05" rfl).1

/-- Claim C4: when the institution-name list and the reference-key list of a
502 occurrence differ in length, the output is one name-only entry per name,
none carrying a curated_relation flag or a record reference; when the lengths
agree, the lists are zipped into curated entries pairing each name with its
resolved reference. -/
theorem C4_institution_pairing :
    ∀ v : Occ502,
      ((force_list v.c).length ≠ (force_list v.z).length →
        _get_institutions v = (force_list v.c).map (fun n => { name := n })
        ∧ ∀ e ∈ _get_institutions v, e.curated_relation = none ∧ e.record = none)
      ∧ ((force_list v.c).length = (force_list v.z).length →
        _get_institutions v = ((force_list v.c).zip (force_list v.z)).map (fun p =>
          { curated_relation := some true, name := p.1,
            record := some (get_record_ref (some p.2) "institutions") })) := by
  intro v
  constructor
  · intro h
    have he : _get_institutions v =
        (force_list v.c).map (fun n => ({ name := n } : Institution)) := by
      simp [_get_institutions, h]
    refine ⟨he, ?_⟩
    intro e hme
    rw [he, List.mem_map] at hme
    obtain ⟨n, -, rfl⟩ := hme
    exact ⟨rfl, rfl⟩
  · intro h
    simp [_get_institutions, h]

/-- Claim C4 witness: two institution names against a single reference key
degrade to two name-only entries. -/
theorem C4_witness :
    _get_institutions { c := some (SubVal.list ["Fermilab", "DESY"]),
                        z := some (SubVal.str "902770") } =
      [{ name := "Fermilab" }, { name := "DESY" }] :=
  ((C4_institution_pairing { c := some (SubVal.list ["Fermilab", "DESY"]),
                             z := some (SubVal.str "902770") }).1 (by decide)).1.trans
    (by decide)

/-- Claim C2: the degree-type sub-field "Ph.D. Thesis" in any letter case
resolves to "phd", any casing of "Rapport de Stage" resolves to "other", any
other non-empty unmapped value resolves to "other", and an empty or absent
sub-field b leaves the cleaned thesis_info object with no degree_type key at
all. -/
theorem C2_degree_type_normalization :
    ∀ (t : ThesisInfo) (v : Occ502),
      (∀ s, v.b = some (SubVal.str s) → str_upper s = "PH.D. THESIS" →
        (strip_null_values (thesis_info t v)).degree_type = some (some "phd"))
      ∧ (∀ s, v.b = some (SubVal.str s) → str_upper s = "RAPPORT DE STAGE" →
        (strip_null_values (thesis_info t v)).degree_type = some (some "other"))
      ∧ (∀ s, v.b = some (SubVal.str s) → ¬ s = "" →
          DEGREE_TYPES_MAP.lookup (str_upper s) = none →
        (strip_null_values (thesis_info t v)).degree_type = some (some "other"))
      ∧ ((v.b = none ∨ v.b = some (SubVal.str "")) →
        (strip_null_values (thesis_info t v)).degree_type = none) := by
  intro t v
  refine ⟨?_, ?_, ?_, ?_⟩
  · intro s hb hu
    have hs : ¬ s = "" := by
      intro h
      rw [h] at hu
      exact absurd hu (by decide)
    have hd : _get_degree_type v = some "phd" := by
      rw [_get_degree_type_of_str v s hb hs, hu]
      decide
    simp [strip_null_values, thesis_info, hd]
  · intro s hb hu
    have hs : ¬ s = "" := by
      intro h
      rw [h] at hu
      exact absurd hu (by decide)
    have hd : _get_degree_type v = some "other" := by
      rw [_get_degree_type_of_str v s hb hs, hu]
      decide
    simp [strip_null_values, thesis_info, hd]
  · intro s hb hs hl
    have hd : _get_degree_type v = some "other" := by
      rw [_get_degree_type_of_str v s hb hs, hl]
      rfl
    simp [strip_null_values, thesis_info, hd]
  · have hd : ∀ hb : v.b = none ∨ v.b = some (SubVal.str ""),
        _get_degree_type v = none := by
      rintro (hb | hb) <;> simp [_get_degree_type, hb, force_single_element]
    intro hb
    simp [strip_null_values, thesis_info, hd hb]

/-- Claim C2 witness: the theorem applied at concrete degree strings and at
an occurrence with no sub-field b. -/
theorem C2_witness :
    (strip_null_values (thesis_info {} { b := some (SubVal.str "Ph.D. thesis") })).degree_type =
      some (some "phd")
    ∧ (strip_null_values (thesis_info {} { b := some (SubVal.str "Rapport de Stage") })).degree_type =
      some (some "other")
    ∧ (strip_null_values (thesis_info {} { b := some (SubVal.str "Weird Degree") })).degree_type =
      some (some "other")
    ∧ (strip_null_values (thesis_info {} ({} : Occ502))).degree_type = none :=
  ⟨(C2_degree_type_normalization {} _).1 "Ph.D. thesis" rfl (by decide),
   (C2_degree_type_normalization {} _).2.1 "Rapport de Stage" rfl (by decide),
   (C2_degree_type_normalization {} _).2.2.1 "Weird Degree" rfl (by decide) (by decide),
   (C2_degree_type_normalization {} _).2.2.2 (Or.inl rfl)⟩

/-- Claim C5: for well-formed single occurrences of the funding tag 536 and
of the licensing tag 540, the backward rule applied to the forward rule's
output reproduces the original occurrence exactly. -/
theorem C5_round_trip :
    ∀ (r536 : Occ536) (r540 : Occ540),
      (wellFormed536 r536 → funding_info2marc (funding_info r536) = r536)
      ∧ (wellFormed540 r540 → license2marc (license r540) = r540) := by
  intro r536 r540
  refine ⟨fun _ => rfl, fun h => ?_⟩
  obtain ⟨a, b, u, three⟩ := r540
  obtain ⟨⟨s, ha⟩, -⟩ := h
  cases ha
  rfl

/-- Claim C5 witness: the round trips evaluated at a concrete funding
occurrence and a concrete license occurrence. -/
theorem C5_witness :
    funding_info2marc (funding_info { a := some (SubVal.str "NSF"),
                                      c := some (SubVal.str "PHY-1234"),
                                      f := some (SubVal.str "P-5678") }) =
      { a := some (SubVal.str "NSF"),
        c := some (SubVal.str "PHY-1234"),
        f := some (SubVal.str "P-5678") }
    ∧ license2marc (license { a := some (SubVal.str "CC-BY-4.0"),
                              b := some (SubVal.str "Elsevier"),
                              u := some (SubVal.str "http://cc.org"),
                              three := some (SubVal.str "publication") }) =
      { a := some (SubVal.str "CC-BY-4.0"),
        b := some (SubVal.str "Elsevier"),
        u := some (SubVal.str "http://cc.org"),
        three := some (SubVal.str "publication") } :=
  ⟨(C5_round_trip { a := some (SubVal.str "NSF"),
                    c := some (SubVal.str "PHY-1234"),
                    f := some (SubVal.str "P-5678") } {}).1
      ⟨by decide, by decide, by decide⟩,
   (C5_round_trip {} { a := some (SubVal.str "CC-BY-4.0"),
                       b := some (SubVal.str "Elsevier"),
                       u := some (SubVal.str "http://cc.org"),
                       three := some (SubVal.str "publication") }).2
      ⟨⟨"CC-BY-4.0", rfl⟩, by decide, by decide, by decide⟩⟩

/-- Claim C6: on a copyright occurrence where sub-field e is truthy and
sub-field 3 is also present, the backward image of the forward image equals
the one computed with sub-field 3 removed (3 has no influence and is never
reproduced; the backward occurrence shape has no 3 sub-field), and the
reconstructed sub-field e is exactly e mapped through MATERIAL_MAP and back
through E_MAP. -/
theorem C6_copyright_material_lossy :
    ∀ v : Occ542, pyTruthy v.e = true → v.three ≠ none →
      copyright2marc (copyright v) = copyright2marc (copyright { v with three := none })
      ∧ (copyright2marc (copyright v)).e =
          (dict_get_sub MATERIAL_MAP v.e).bind (fun m => E_MAP.lookup m) := by
  intro v he _
  have hor : pyOr v.e v.three = v.e := by simp [pyOr, he]
  have hor2 : pyOr v.e (none : Option SubVal) = v.e := by simp [pyOr, he]
  constructor
  · simp [copyright, copyright2marc, hor, hor2]
  · simp [copyright, copyright2marc, hor]

/-- Claim C6 witness: a concrete occurrence carrying both material
sub-fields; the fallback sub-field does not survive the round trip while e
comes back as "Article". -/
theorem C6_witness :
    copyright2marc (copyright { e := some (SubVal.str "Article"),
                                three := some (SubVal.str "Published thesis as a book") }) =
      copyright2marc (copyright { e := some (SubVal.str "Article") })
    ∧ (copyright2marc (copyright { e := some (SubVal.str "Article"),
                                   three := some (SubVal.str "Published thesis as a book") })).e =
      some "Article" :=
  ⟨(C6_copyright_material_lossy { e := some (SubVal.str "Article"),
                                  three := some (SubVal.str "Published thesis as a book") }
      (by decide) (by decide)).1,
   ((C6_copyright_material_lossy { e := some (SubVal.str "Article"),
                                   three := some (SubVal.str "Published thesis as a book") }
      (by decide) (by decide)).2).trans (by decide)⟩

/-- Claim C7: the backward export rule emits at most one occurrence, with the
fixed precedence CDS-present, then HAL-true, then HAL-false; with CDS and
HAL-true both set the single occurrence classifies as "CDS", and with none of
the three conditions the output is empty. -/
theorem C7_export_flag_precedence :
    ∀ v : ExportTo,
      (_export_to2marc v).length ≤ 1
      ∧ (v.CDS ≠ none → v.HAL = some true → _export_to2marc v = [⟨"CDS"⟩])
      ∧ (v.CDS = none → v.HAL = some true → _export_to2marc v = [⟨"HAL"⟩])
      ∧ (v.CDS = none → v.HAL = some false → _export_to2marc v = [⟨"not HAL"⟩])
      ∧ (v.CDS = none → v.HAL = none → _export_to2marc v = []) := by
  intro v
  obtain ⟨cds, hal⟩ := v
  rcases cds with _ | c
  · rcases hal with _ | h
    · decide
    · cases h <;> decide
  · rcases hal with _ | h
    · cases c <;> decide
    · cases c <;> cases h <;> decide

/-- Claim C7 witness: simultaneous CDS and HAL-true flags yield exactly the
CDS occurrence; an empty flag object yields no occurrence. -/
theorem C7_witness :
    _export_to2marc { CDS := some true, HAL := some true } = [⟨"CDS"⟩]
    ∧ _export_to2marc {} = [] :=
  ⟨(C7_export_flag_precedence { CDS := some true, HAL := some true }).2.1
      (by decide) rfl,
   (C7_export_flag_precedence {}).2.2.2.2 rfl rfl⟩

/-- Any note reached by folding the HAL-note append step over a list of
occurrences either was already in the accumulator or carries source "HAL". -/
theorem hal_fold_mem (occs : List Occ595H) :
    ∀ (pn : List NoteEntry) (e : NoteEntry),
      e ∈ occs.foldl
          (fun acc occ =>
            acc ++ (force_list occ.a).map (fun note => (⟨some "HAL", note⟩ : NoteEntry)))
          pn →
      e ∈ pn ∨ e.source = some "HAL" := by
  induction occs with
  | nil => exact fun pn e he => Or.inl he
  | cons o os ih =>
      intro pn e he
      rw [List.foldl_cons] at he
      rcases ih _ e he with h | h
      · rw [List.mem_append] at h
        rcases h with h | h
        · exact Or.inl h
        · obtain ⟨n, -, rfl⟩ := List.mem_map.mp h
          exact Or.inr rfl
      · exact Or.inr h

/-- Running the backward private-notes fold from non-empty accumulators only
prepends the accumulators to what the fold produces from empty ones. -/
theorem _private_notes2marc_acc (notes : List NoteEntry) :
    ∀ (r595 : List Occ595) (rH : List Occ595Hout),
      _private_notes2marc r595 rH notes =
        (r595 ++ (_private_notes2marc [] [] notes).1,
         rH ++ (_private_notes2marc [] [] notes).2) := by
  induction notes with
  | nil => intro r rH; simp [_private_notes2marc]
  | cons n ns ih =>
      intro r rH
      by_cases h : n.source = some "HAL"
      · have h1 : _private_notes2marc r rH (n :: ns) =
            _private_notes2marc r (rH ++ [⟨n.value⟩]) ns := by
          simp [_private_notes2marc, h]
        have h2 : _private_notes2marc [] [] (n :: ns) =
            _private_notes2marc [] [⟨n.value⟩] ns := by
          simp [_private_notes2marc, h]
        have ha := ih r (rH ++ [(⟨n.value⟩ : Occ595Hout)])
        have hb := ih ([] : List Occ595) [(⟨n.value⟩ : Occ595Hout)]
        rw [h1, h2, ha, hb]
        simp
      · have h1 : _private_notes2marc r rH (n :: ns) =
            _private_notes2marc (r ++ [⟨n.source, n.value⟩]) rH ns := by
          simp [_private_notes2marc, h]
        have h2 : _private_notes2marc [] [] (n :: ns) =
            _private_notes2marc [⟨n.source, n.value⟩] [] ns := by
          simp [_private_notes2marc, h]
        have ha := ih (r ++ [(⟨n.source, n.value⟩ : Occ595)]) rH
        have hb := ih [(⟨n.source, n.value⟩ : Occ595)] ([] : List Occ595Hout)
        rw [h1, h2, ha, hb]
        simp

/-- The backward private-notes rule, started from empty accumulators, splits
the notes by source: HAL notes to the 595_H list, the rest to the 595 list,
each in order. -/
theorem _private_notes2marc_split (notes : List NoteEntry) :
    _private_notes2marc [] [] notes =
      ((notes.filter (fun n => !(n.source == some "HAL"))).map
          (fun n => (⟨n.source, n.value⟩ : Occ595)),
       (notes.filter (fun n => n.source == some "HAL")).map
          (fun n => (⟨n.value⟩ : Occ595Hout))) := by
  induction notes with
  | nil => rfl
  | cons n ns ih =>
      by_cases h : n.source = some "HAL"
      · have h2 : _private_notes2marc [] [] (n :: ns) =
            _private_notes2marc [] [⟨n.value⟩] ns := by
          simp [_private_notes2marc, h]
        rw [h2, _private_notes2marc_acc, ih]
        simp [h]
      · have h2 : _private_notes2marc [] [] (n :: ns) =
            _private_notes2marc [⟨n.source, n.value⟩] [] ns := by
          simp [_private_notes2marc, h]
        rw [h2, _private_notes2marc_acc, ih]
        simp [h]

/-- Claim C8: every note the HAL-origin forward rule produces has source
exactly "HAL", whatever attribution sub-field the raw occurrence carries, and
in the backward direction the notes whose source is "HAL" all go to the
dedicated 595_H list while every other note goes to the general 595 list. -/
theorem C8_hal_attribution :
    (∀ (v : RawField Occ595H) (e : NoteEntry),
      e ∈ _private_notes_hal [] v → e.source = some "HAL")
    ∧ ∀ notes : List NoteEntry,
        (_private_notes2marc [] [] notes).2 =
          (notes.filter (fun n => n.source == some "HAL")).map
            (fun n => (⟨n.value⟩ : Occ595Hout))
        ∧ (_private_notes2marc [] [] notes).1 =
          (notes.filter (fun n => !(n.source == some "HAL"))).map
            (fun n => (⟨n.source, n.value⟩ : Occ595)) := by
  constructor
  · intro v e he
    rcases hal_fold_mem (force_list_field v) [] e he with h | h
    · exact absurd h (List.not_mem_nil e)
    · exact h
  · intro notes
    rw [_private_notes2marc_split]
    exact ⟨rfl, rfl⟩

/-- Claim C8 witness: a raw HAL occurrence with a foreign attribution
sub-field still yields a note attributed "HAL", and a HAL and a non-HAL note
route to the 595_H and 595 lists respectively. -/
theorem C8_witness :
    (⟨some "HAL", "temp note"⟩ : NoteEntry) ∈
        _private_notes_hal [] (.one { nine := some (SubVal.str "arXiv"),
                                      a := some (SubVal.str "temp note") })
    ∧ (⟨some "HAL", "temp note"⟩ : NoteEntry).source = some "HAL"
    ∧ (_private_notes2marc [] [] [⟨some "HAL", "x"⟩, ⟨some "CERN", "y"⟩]).2 = [⟨"x"⟩]
    ∧ (_private_notes2marc [] [] [⟨some "HAL", "x"⟩, ⟨some "CERN", "y"⟩]).1 =
        [⟨some "CERN", "y"⟩] := by
  refine ⟨by decide,
    C8_hal_attribution.1
      (.one { nine := some (SubVal.str "arXiv"), a := some (SubVal.str "temp note") })
      ⟨some "HAL", "temp note"⟩ (by decide), ?_, ?_⟩
  · exact (C8_hal_attribution.2 [⟨some "HAL", "x"⟩, ⟨some "CERN", "y"⟩]).1.trans (by decide)
  · exact (C8_hal_attribution.2 [⟨some "HAL", "x"⟩, ⟨some "CERN", "y"⟩]).2.trans (by decide)

/-- The list-against-string comparison of the license filter is false for
every list, so the filter predicate is constantly true. -/
theorem license_filter_id (xs : List String) :
    xs.filter (fun _val => !(pyEq (Py.l xs) (Py.s "Open Access"))) = xs := by
  have hp : pyEq (Py.l xs) (Py.s "Open Access") = false := rfl
  simp [hp]

/-- Claim C10: the license rule's filter removes nothing, so the output
license attribute is the collapsed sub-field a unchanged — including when
that value is exactly "Open Access". -/
theorem C10_license_filter_removes_nothing :
    (∀ v : Occ540, (license v).license = fse_list (force_list v.a))
    ∧ (license { a := some (SubVal.str "Open Access") }).license = some "Open Access" := by
  constructor
  · intro v
    simp [license, license_filter_id]
  · rfl
